import Mathlib

/-!
Verification of the rv1106_camera media-pipeline core (namespace `rmg`):
a shallow embedding of the frame-ownership model (`MediaFrame.cpp/.hpp`),
the module lifecycle state machines (`VideoCapture`, `VideoEncoder`,
`RtspServer`, `FileSaver`), the reference-counted MPI system manager
(`SystemManager.cpp`) and the pipeline/binding manager (`Pipeline.cpp`).
External vendor calls (RK MPI) are modelled as parameters: their boolean
success results are inputs, and their invocations are recorded in
explicit call traces so that "called exactly once" properties can be
stated and proved.
-/

namespace Rmg

/-- Lifecycle states of a `MediaModule` (`MediaModule.hpp`, `ModuleState`).
Source names: `kUninitialized`, `kInitialized`, `kRunning`, `kStopped`,
`kError`; shortened here to `kUninit`/`kInited` for the first two. -/
inductive ModuleState where
| kUninit
| kInited
| kRunning
| kStopped
| kError
deriving DecidableEq, Repr

-- ===========================================================================
-- VideoCapture (VideoCapture.cpp)
-- ===========================================================================

/-- State of a `VideoCapture` module.  `running` is the `running_` atomic
flag, `joins` counts how many times `Stop` joined the capture thread,
`threads` counts capture-thread spawns, and the three booleans mirror
`sys_guard_` validity, `isp_initialized_` and `vi_initialized_`. -/
structure VideoCapture where
  state : ModuleState
  running : Bool
  sysGuard : Option Bool
  ispInited : Bool
  viInited : Bool
  joins : Nat
  threads : Nat
deriving DecidableEq, Repr

/-- `VideoCapture::VideoCapture` member defaults. -/
def VideoCapture.fresh : VideoCapture :=
  { state := .kUninit, running := false, sysGuard := none,
    ispInited := false, viInited := false, joins := 0, threads := 0 }

/-- `VideoCapture::Initialize` (VideoCapture.cpp): early-returns `true` when
the state is not `kUninitialized`; otherwise creates the `SystemGuard`,
runs ISP init then VI init, moving to `kError` on the first failure and to
`kInitialized` on success.  `sysOk`/`ispOk`/`viOk` are the results of the
external MPI calls. -/
def VideoCapture.Initialize (sysOk ispOk viOk : Bool) (m : VideoCapture) :
    Bool × VideoCapture :=
  if m.state ≠ .kUninit then (true, m)
  else
    let m1 := { m with sysGuard := some sysOk }
    if ¬sysOk then (false, { m1 with state := .kError })
    else if ¬ispOk then (false, { m1 with state := .kError })
    else
      let m2 := { m1 with ispInited := true }
      if ¬viOk then (false, { m2 with state := .kError })
      else (true, { m2 with viInited := true, state := .kInited })

/-- `VideoCapture::Start`: fails unless the state is `kInitialized` or
`kStopped`; otherwise sets the running flag, spawns the capture thread and
moves to `kRunning`. -/
def VideoCapture.Start (m : VideoCapture) : Bool × VideoCapture :=
  if m.state ≠ .kInited ∧ m.state ≠ .kStopped then (false, m)
  else (true, { m with running := true, threads := m.threads + 1,
                       state := .kRunning })

/-- `VideoCapture::Stop`: returns immediately when the running flag is
clear; otherwise clears it, joins the capture thread and moves to
`kStopped`. -/
def VideoCapture.Stop (m : VideoCapture) : VideoCapture :=
  if ¬m.running then m
  else { m with running := false, joins := m.joins + 1, state := .kStopped }

-- ===========================================================================
-- VideoEncoder (VideoEncoder.cpp)
-- ===========================================================================

/-- State of a `VideoEncoder` module: `channelCreated` mirrors
`channel_created_`, the rest is as for `VideoCapture`. -/
structure VideoEncoder where
  state : ModuleState
  running : Bool
  channelCreated : Bool
  joins : Nat
  threads : Nat
deriving DecidableEq, Repr

/-- `VideoEncoder::VideoEncoder` member defaults. -/
def VideoEncoder.fresh : VideoEncoder :=
  { state := .kUninit, running := false, channelCreated := false,
    joins := 0, threads := 0 }

/-- `VideoEncoder::Initialize`: early-returns `true` when not
`kUninitialized`; otherwise `CreateChannel`, moving to `kError` on failure
and `kInitialized` on success (`createOk` is `RK_MPI_VENC_CreateChn`
success). -/
def VideoEncoder.Initialize (createOk : Bool) (m : VideoEncoder) :
    Bool × VideoEncoder :=
  if m.state ≠ .kUninit then (true, m)
  else if ¬createOk then (false, { m with state := .kError })
  else (true, { m with channelCreated := true, state := .kInited })

/-- `VideoEncoder::Start`: same guard and effect as `VideoCapture::Start`,
spawning the stream thread. -/
def VideoEncoder.Start (m : VideoEncoder) : Bool × VideoEncoder :=
  if m.state ≠ .kInited ∧ m.state ≠ .kStopped then (false, m)
  else (true, { m with running := true, threads := m.threads + 1,
                       state := .kRunning })

/-- `VideoEncoder::Stop`: no-op when the running flag is clear; otherwise
clears it, joins the stream thread and moves to `kStopped`. -/
def VideoEncoder.Stop (m : VideoEncoder) : VideoEncoder :=
  if ¬m.running then m
  else { m with running := false, joins := m.joins + 1, state := .kStopped }

-- ===========================================================================
-- RtspServer (RtspServer.cpp)
-- ===========================================================================

/-- State of an `RtspServer` module: `demo`/`session` record whether the
`demo_` and `session_` pointers are non-null. -/
structure RtspServer where
  state : ModuleState
  demo : Bool
  session : Bool
deriving DecidableEq, Repr

/-- `RtspServer` member defaults. -/
def RtspServer.fresh : RtspServer :=
  { state := .kUninit, demo := false, session := false }

/-- `RtspServer::Initialize`: early-returns `true` when not
`kUninitialized`; otherwise creates the demo, the session and sets the
codec, undoing partial work and moving to `kError` on each failure. -/
def RtspServer.Initialize (createOk sessionOk setVideoOk : Bool)
    (m : RtspServer) : Bool × RtspServer :=
  if m.state ≠ .kUninit then (true, m)
  else if ¬createOk then (false, { m with state := .kError })
  else
    let m1 := { m with demo := true }
    if ¬sessionOk then (false, { m1 with demo := false, state := .kError })
    else
      let m2 := { m1 with session := true }
      if ¬setVideoOk then
        (false, { m2 with session := false, demo := false, state := .kError })
      else (true, { m2 with state := .kInited })

/-- `RtspServer::Start`: fails unless the state is exactly `kInitialized`
(note: unlike the other modules, `kStopped` is rejected); on success moves
to `kRunning`. -/
def RtspServer.Start (m : RtspServer) : Bool × RtspServer :=
  if m.state ≠ .kInited then (false, m)
  else (true, { m with state := .kRunning })

/-- `RtspServer::Stop`: returns immediately from `kUninitialized`;
otherwise deletes session and demo (if present) and moves to
`kStopped`. -/
def RtspServer.Stop (m : RtspServer) : RtspServer :=
  if m.state = .kUninit then m
  else { m with session := false, demo := false, state := .kStopped }

-- ===========================================================================
-- FileSaver (FileSaver.cpp)
-- ===========================================================================

/-- State of a `FileSaver` module: `recording` mirrors `is_recording_`,
and the counters mirror `frame_count_`/`byte_count_`. -/
structure FileSaver where
  state : ModuleState
  recording : Bool
  frameCount : Nat
  byteCount : Nat
deriving DecidableEq, Repr

/-- `FileSaver` member defaults. -/
def FileSaver.fresh : FileSaver :=
  { state := .kUninit, recording := false, frameCount := 0, byteCount := 0 }

/-- `FileSaver::Initialize`: early-returns `true` when not
`kUninitialized`; otherwise ensures the output directory exists (`dirOk`
is the filesystem result), moving to `kError` on failure and
`kInitialized` on success. -/
def FileSaver.Initialize (dirOk : Bool) (m : FileSaver) : Bool × FileSaver :=
  if m.state ≠ .kUninit then (true, m)
  else if ¬dirOk then (false, { m with state := .kError })
  else (true, { m with state := .kInited })

/-- `FileSaver::Start`: fails unless `kInitialized` or `kStopped`; on
success resets the counters and moves to `kRunning`. -/
def FileSaver.Start (m : FileSaver) : Bool × FileSaver :=
  if m.state ≠ .kInited ∧ m.state ≠ .kStopped then (false, m)
  else (true, { m with frameCount := 0, byteCount := 0, state := .kRunning })

/-- `FileSaver::Stop`: returns immediately from `kUninitialized`;
otherwise stops any active recording and moves to `kStopped`. -/
def FileSaver.Stop (m : FileSaver) : FileSaver :=
  if m.state = .kUninit then m
  else { m with recording := false, state := .kStopped }

-- ===========================================================================
-- SystemManager (SystemManager.cpp)
-- ===========================================================================

/-- State of the `SystemManager` singleton: `ref_count` is the atomic
reference count, `sys_inited` mirrors `sys_initialized_`, and
`initCalls`/`exitCalls` record how many times `RK_MPI_SYS_Init` and
`RK_MPI_SYS_Exit` were invoked. -/
structure SysState where
  ref_count : Int
  sys_inited : Bool
  initCalls : Nat
  exitCalls : Nat
deriving DecidableEq, Repr

/-- The freshly constructed singleton. -/
def SysState.fresh : SysState :=
  { ref_count := 0, sys_inited := false, initCalls := 0, exitCalls := 0 }

/-- `SystemManager::Initialize`: increments the reference count; when the
pre-increment count was positive, returns `true` at once; otherwise calls
`RK_MPI_SYS_Init` (result `initOk`), rolling the increment back and
returning `false` on failure, and setting `sys_initialized_` on
success. -/
def SysState.Initialize (initOk : Bool) (s : SysState) : Bool × SysState :=
  let prev := s.ref_count
  let s1 := { s with ref_count := prev + 1 }
  if prev > 0 then (true, s1)
  else
    let s2 := { s1 with initCalls := s1.initCalls + 1 }
    if ¬initOk then (false, { s2 with ref_count := s2.ref_count - 1 })
    else (true, { s2 with sys_inited := true })

/-- `SystemManager::Deinitialize` (shortened name `Deinit`): decrements
the reference count; a pre-decrement count `≤ 0` is clamped back to `0`
with a warning; a pre-decrement count of exactly `1` with the system
initialized calls `RK_MPI_SYS_Exit` and clears `sys_initialized_`. -/
def SysState.Deinit (s : SysState) : SysState :=
  let prev := s.ref_count
  let s1 := { s with ref_count := prev - 1 }
  if prev ≤ 0 then { s1 with ref_count := 0 }
  else if prev = 1 ∧ s1.sys_inited then
    { s1 with exitCalls := s1.exitCalls + 1, sys_inited := false }
  else s1

/-- `n` consecutive `Initialize` calls, each with the underlying
`RK_MPI_SYS_Init` succeeding. -/
def SysState.applyInits : Nat → SysState → SysState
| 0, s => s
| n + 1, s => SysState.applyInits n (SysState.Initialize true s).2

/-- `n` consecutive `Deinitialize` calls. -/
def SysState.applyDeinits : Nat → SysState → SysState
| 0, s => s
| n + 1, s => SysState.applyDeinits n s.Deinit

-- ===========================================================================
-- Pipeline (Pipeline.cpp) and the module registry/binding manager
-- ===========================================================================

/-- `ModuleEndpoint` (Pipeline.hpp): the (subsystem, device, channel)
triple naming one hardware data port. -/
structure ModuleEndpoint where
  mod_id : Int
  dev_id : Int
  chn_id : Int
deriving DecidableEq, Repr

/-- `BindType` (Pipeline.hpp). -/
inductive BindType where
| kHardware
| kSoftware
deriving DecidableEq, Repr

/-- `BindInfo` (Pipeline.hpp): module references are modelled as optional
indices into a module table (`none` models a null `ModulePtr`). -/
structure BindInfo where
  src_module : Option Nat
  dst_module : Option Nat
  src_endpoint : ModuleEndpoint
  dst_endpoint : ModuleEndpoint
  bind_type : BindType
deriving DecidableEq, Repr

/-- `true` exactly for hardware bindings (the `UnbindAll` loop test). -/
def BindInfo.isHardware (b : BindInfo) : Bool :=
  match b.bind_type with
  | .kHardware => true
  | .kSoftware => false

/-- The zero endpoint, used for value-initialized `BindInfo{}` fields. -/
def ModuleEndpoint.zero : ModuleEndpoint :=
  { mod_id := 0, dev_id := 0, chn_id := 0 }

/-- Pipeline state: the recorded binding list plus traces of every
`RK_MPI_SYS_Bind` and `RK_MPI_SYS_UnBind` invocation (each recorded with
the endpoint pair passed to the external primitive). -/
structure Pipeline where
  bindings : List BindInfo
  bindCalls : List (ModuleEndpoint × ModuleEndpoint)
  unbindCalls : List (ModuleEndpoint × ModuleEndpoint)
deriving DecidableEq, Repr

/-- `Pipeline::Pipeline`: empty registry and traces. -/
def Pipeline.fresh : Pipeline :=
  { bindings := [], bindCalls := [], unbindCalls := [] }

/-- `Pipeline::BindHardware`: always invokes the external bind primitive
on the endpoint pair (`ok` is its result); on failure returns `false`
with no binding recorded; on success appends a hardware `BindInfo`. -/
def Pipeline.BindHardware (ok : Bool) (src dst : ModuleEndpoint)
    (p : Pipeline) : Bool × Pipeline :=
  let p1 := { p with bindCalls := p.bindCalls ++ [(src, dst)] }
  if ¬ok then (false, p1)
  else (true, { p1 with bindings := p1.bindings ++
      [{ src_module := none, dst_module := none, src_endpoint := src,
         dst_endpoint := dst, bind_type := .kHardware }] })

/-- `Pipeline::UnbindAll`: for every recorded hardware binding, invokes
the external unbind primitive with its endpoint pair (failures are only
logged), then clears the binding list.  Registered modules are not
touched. -/
def Pipeline.UnbindAll (p : Pipeline) : Pipeline :=
  { p with
    unbindCalls := p.unbindCalls ++
      (p.bindings.filter BindInfo.isHardware).map
        (fun b => (b.src_endpoint, b.dst_endpoint)),
    bindings := [] }

/-- A `MediaModule` as seen by the software-binding machinery: just the
`output_callback_` slot.  `some d` models the forwarding closure installed
by `BindSoftware`, which captures a `weak_ptr` to the destination module
with table index `d`; `none` models an empty `std::function`. -/
structure MediaModuleR where
  output_callback : Option Nat
deriving DecidableEq, Repr

/-- `MediaModule::PushFrame` default implementation (MediaModule.hpp):
returns `false` and discards the frame.  No concrete module in the
repository overrides the virtual `PushFrame(FramePtr)` (RtspServer's
`PushFrame(const EncodedFrame&)` is an unrelated non-virtual overload),
so virtual dispatch always lands here. -/
def MediaModuleR.PushFrame (m : MediaModuleR) (_frame : Nat) :
    Bool × MediaModuleR :=
  (false, m)

/-- A pipeline together with the table of registered modules'
callback-relevant state. -/
structure PipeSys where
  pipe : Pipeline
  modules : List MediaModuleR
deriving DecidableEq, Repr

/-- `Pipeline::BindSoftware`: fails on a null module reference; otherwise
installs the forwarding output callback on the source module (capturing a
weak reference to the destination) and records a software `BindInfo`. -/
def PipeSys.BindSoftware (src dst : Option Nat) (s : PipeSys) :
    Bool × PipeSys :=
  match src, dst with
  | some si, some di =>
      (true,
       { pipe := { s.pipe with bindings := s.pipe.bindings ++
           [{ src_module := some si, dst_module := some di,
              src_endpoint := ModuleEndpoint.zero,
              dst_endpoint := ModuleEndpoint.zero,
              bind_type := .kSoftware }] },
         modules := s.modules.set si { output_callback := some di } })
  | _, _ => (false, s)

/-- `Pipeline::UnbindAll` lifted to the system: the binding list is
cleared but no module's callback slot is modified. -/
def PipeSys.UnbindAll (s : PipeSys) : PipeSys :=
  { s with pipe := s.pipe.UnbindAll }

/-- One delivery through the forwarding callback installed by
`BindSoftware`: lock the weak reference to module `cbTarget`; if the
destination is gone the frame is silently dropped (`none`), otherwise the
frame is passed to the destination's `PushFrame`, whose result is
reported. -/
def softwareForward (modules : List MediaModuleR) (cbTarget : Nat)
    (frame : Nat) : Option Bool :=
  match modules[cbTarget]? with
  | some dst => some (dst.PushFrame frame).1
  | none => none

-- ===========================================================================
-- Frames (MediaFrame.hpp / MediaFrame.cpp)
-- ===========================================================================

/-- The fields of `VIDEO_FRAME_INFO_S.stVFrame` the wrapper reads.
Pointers (`pMbBlk`, `pVirAddr[0]`) are modelled as `Option Nat`
(`none` = null); value fields are naturals.  A value-initialized
`VIDEO_FRAME_INFO_S{}` is all zeros/nulls. -/
structure VideoFrameInfo where
  pMbBlk : Option Nat
  pVirAddr0 : Option Nat
  u64PTS : Nat
  u32Width : Nat
  u32Height : Nat
  u32VirWidth : Nat
  u32VirHeight : Nat
deriving DecidableEq, Repr

/-- The zero-initialized `VIDEO_FRAME_INFO_S{}`. -/
def VideoFrameInfo.zero : VideoFrameInfo :=
  { pMbBlk := none, pVirAddr0 := none, u64PTS := 0, u32Width := 0,
    u32Height := 0, u32VirWidth := 0, u32VirHeight := 0 }

/-- The external RK MPI buffer-handle queries used by the accessors,
kept abstract. -/
structure MpiEnv where
  handle2VirAddr : Nat → Option Nat
  handle2PhysAddr : Nat → Nat
  mbGetSize : Nat → Nat

/-- `YuvFrame` (MediaFrame.hpp): the wrapped `frame_info_`, the stored
`release_cb_` (`none` = empty `std::function`, `some c` identifies the
stored callback) and the `is_valid_` flag. -/
structure YuvFrame where
  frame_info : VideoFrameInfo
  release_cb : Option Nat
  is_valid : Bool
deriving DecidableEq, Repr

/-- `YuvFrame()` — the default-constructed invalid frame. -/
def YuvFrame.defaultFrame : YuvFrame :=
  { frame_info := VideoFrameInfo.zero, release_cb := none, is_valid := false }

/-- `YuvFrame::YuvFrame(frame_info, release_cb)` (MediaFrame.cpp): stores
both and sets `is_valid_ = (pMbBlk != nullptr)`. -/
def YuvFrame.fromAcquired (fi : VideoFrameInfo) (cb : Option Nat) : YuvFrame :=
  { frame_info := fi, release_cb := cb, is_valid := fi.pMbBlk.isSome }

/-- What the move constructor / move assignment leave behind in the
moved-from `YuvFrame`: `is_valid_ = false`, `pMbBlk = nullptr`,
`release_cb_ = nullptr` — note the remaining `frame_info_` metadata
(PTS, width, height, …) is NOT cleared. -/
def YuvFrame.movedFrom (f : YuvFrame) : YuvFrame :=
  { frame_info := { f.frame_info with pMbBlk := none },
    release_cb := none, is_valid := false }

/-- `YuvFrame::GetVirAddr`: null when invalid or the handle is null;
otherwise `pVirAddr[0]`, falling back to `RK_MPI_MB_Handle2VirAddr`. -/
def YuvFrame.GetVirAddr (env : MpiEnv) (f : YuvFrame) : Option Nat :=
  if ¬f.is_valid ∨ f.frame_info.pMbBlk = none then none
  else
    match f.frame_info.pVirAddr0 with
    | some v => some v
    | none =>
        match f.frame_info.pMbBlk with
        | some h => env.handle2VirAddr h
        | none => none

/-- `YuvFrame::GetPhyAddr`: 0 when invalid or the handle is null. -/
def YuvFrame.GetPhyAddr (env : MpiEnv) (f : YuvFrame) : Nat :=
  if ¬f.is_valid ∨ f.frame_info.pMbBlk = none then 0
  else
    match f.frame_info.pMbBlk with
    | some h => env.handle2PhysAddr h
    | none => 0

/-- `YuvFrame::GetDataSize`: 0 when invalid or the handle is null. -/
def YuvFrame.GetDataSize (env : MpiEnv) (f : YuvFrame) : Nat :=
  if ¬f.is_valid ∨ f.frame_info.pMbBlk = none then 0
  else
    match f.frame_info.pMbBlk with
    | some h => env.mbGetSize h
    | none => 0

/-- `YuvFrame::GetPts` (MediaFrame.hpp, inline): returns the raw stored
`u64PTS` with NO validity check. -/
def YuvFrame.GetPts (f : YuvFrame) : Nat := f.frame_info.u64PTS

/-- `YuvFrame::GetWidth` (inline, no validity check). -/
def YuvFrame.GetWidth (f : YuvFrame) : Nat := f.frame_info.u32Width

/-- `YuvFrame::GetHeight` (inline, no validity check). -/
def YuvFrame.GetHeight (f : YuvFrame) : Nat := f.frame_info.u32Height

/-- `YuvFrame::GetVirWidth` (inline, no validity check). -/
def YuvFrame.GetVirWidth (f : YuvFrame) : Nat := f.frame_info.u32VirWidth

/-- `YuvFrame::GetVirHeight` (inline, no validity check). -/
def YuvFrame.GetVirHeight (f : YuvFrame) : Nat := f.frame_info.u32VirHeight

/-- `YuvFrame::IsValid`. -/
def YuvFrame.IsValid (f : YuvFrame) : Bool := f.is_valid

/-- One encoded packet (`VENC_PACK_S`): its buffer handle, length, PTS
and whether its NAL data type is an I/IDR slice. -/
structure VencPack where
  pMbBlk : Nat
  u32Len : Nat
  u64PTS : Nat
  isIdrNalu : Bool
deriving DecidableEq, Repr

/-- `VENC_STREAM_S` as the wrapper uses it: `pstPack` is an optional
pointer to the pack array (`none` = null) and `u32PackCount` the declared
pack count. -/
structure VencStream where
  pstPack : Option (List VencPack)
  u32PackCount : Nat
deriving DecidableEq, Repr

/-- The zero-initialized `VENC_STREAM_S{}`. -/
def VencStream.zero : VencStream := { pstPack := none, u32PackCount := 0 }

/-- `EncodedFrame` (MediaFrame.hpp): the wrapped `stream_`, the channel
id, the stored `release_cb_` and the `is_valid_` flag. -/
structure EncodedFrame where
  stream : VencStream
  chn_id : Nat
  release_cb : Option Nat
  is_valid : Bool
deriving DecidableEq, Repr

/-- `EncodedFrame()` — the default-constructed invalid frame. -/
def EncodedFrame.defaultFrame : EncodedFrame :=
  { stream := VencStream.zero, chn_id := 0, release_cb := none,
    is_valid := false }

/-- `EncodedFrame::EncodedFrame(stream, chn_id, release_cb)`
(MediaFrame.cpp): `is_valid_ = (u32PackCount > 0 && pstPack != nullptr)`. -/
def EncodedFrame.fromAcquired (st : VencStream) (chn : Nat)
    (cb : Option Nat) : EncodedFrame :=
  { stream := st, chn_id := chn, release_cb := cb,
    is_valid := decide (st.u32PackCount > 0) && st.pstPack.isSome }

/-- What the move operations leave in the moved-from `EncodedFrame`:
`is_valid_ = false`, `pstPack = nullptr`, `release_cb_ = nullptr` — note
`u32PackCount` is NOT cleared. -/
def EncodedFrame.movedFrom (g : EncodedFrame) : EncodedFrame :=
  { stream := { g.stream with pstPack := none },
    release_cb := none, is_valid := false, chn_id := g.chn_id }

/-- `EncodedFrame::GetVirAddr`: null when invalid or `pstPack` is null;
otherwise `RK_MPI_MB_Handle2VirAddr(pstPack[0].pMbBlk)`. -/
def EncodedFrame.GetVirAddr (env : MpiEnv) (g : EncodedFrame) : Option Nat :=
  if ¬g.is_valid ∨ g.stream.pstPack = none then none
  else
    match g.stream.pstPack with
    | some packs =>
        match packs.head? with
        | some p => env.handle2VirAddr p.pMbBlk
        | none => none
    | none => none

/-- `EncodedFrame::GetPhyAddr` (inline): always 0. -/
def EncodedFrame.GetPhyAddr (_g : EncodedFrame) : Nat := 0

/-- `EncodedFrame::GetDataSize`: 0 when invalid or `pstPack` is null;
otherwise the sum of `u32Len` over the first `u32PackCount` packs. -/
def EncodedFrame.GetDataSize (g : EncodedFrame) : Nat :=
  if ¬g.is_valid ∨ g.stream.pstPack = none then 0
  else
    match g.stream.pstPack with
    | some packs =>
        ((packs.take g.stream.u32PackCount).map VencPack.u32Len).sum
    | none => 0

/-- `EncodedFrame::GetPts`: 0 when invalid or `pstPack` is null;
otherwise `pstPack[0].u64PTS`. -/
def EncodedFrame.GetPts (g : EncodedFrame) : Nat :=
  if ¬g.is_valid ∨ g.stream.pstPack = none then 0
  else
    match g.stream.pstPack with
    | some packs =>
        match packs.head? with
        | some p => p.u64PTS
        | none => 0
    | none => 0

/-- `EncodedFrame::GetPacketCount` (inline): returns the raw stored
`u32PackCount` with NO validity check. -/
def EncodedFrame.GetPacketCount (g : EncodedFrame) : Nat :=
  g.stream.u32PackCount

/-- `EncodedFrame::IsKeyFrame`: false when invalid or `pstPack` is null;
otherwise true when any of the first `u32PackCount` packs carries an
I/IDR slice NAL type. -/
def EncodedFrame.IsKeyFrame (g : EncodedFrame) : Bool :=
  if ¬g.is_valid ∨ g.stream.pstPack = none then false
  else
    match g.stream.pstPack with
    | some packs => (packs.take g.stream.u32PackCount).any VencPack.isIdrNalu
    | none => false

/-- `EncodedFrame::IsValid`. -/
def EncodedFrame.IsValid (g : EncodedFrame) : Bool := g.is_valid

-- ===========================================================================
-- Frame ownership system: sequences of move/assign/destroy operations
-- ===========================================================================

/-- The destructor / move-assignment behaviour of a frame type, as a
value: `emit f` is the (possibly empty) list of release-callback
invocations the destructor of `f` performs, `movedFrom f` is what the
move operations leave in the source, and `dflt` is the default
(invalid) frame. -/
structure FrameModel (F E : Type) where
  emit : F → List E
  movedFrom : F → F
  dflt : F

/-- A collection of live frame objects plus the trace of release-callback
invocations performed so far; each event records the argument the release
callback was invoked with. -/
structure FrameSys (F E : Type) where
  frames : List F
  events : List E

/-- One C++ operation on the frame collection: default construction,
move construction from the frame at `src`, move assignment
`frames[dst] = std::move(frames[src])` (a no-op when `dst = src`, per the
self-assignment check), or running the destructor of `frames[i]` (the
dead slot is replaced by a default frame, which can never release). -/
inductive FrameOp where
| defaultCtor
| moveCtor (src : Nat)
| moveAssign (dst src : Nat)
| destroy (i : Nat)
deriving DecidableEq, Repr

/-- Execute one operation.  `moveCtor` copies every field into the new
object and leaves `movedFrom` in the source; `moveAssign` first releases
the destination's current frame (destructor-guard condition), then
transfers all fields and invalidates the source; `destroy` releases and
retires the slot.  Out-of-range indices are no-ops (such programs are
ill-formed C++). -/
def FrameModel.step (M : FrameModel F E) (s : FrameSys F E) :
    FrameOp → FrameSys F E
| .defaultCtor => { s with frames := s.frames ++ [M.dflt] }
| .moveCtor src =>
    match s.frames[src]? with
    | some f =>
        { frames := (s.frames.set src (M.movedFrom f)) ++ [f],
          events := s.events }
    | none => s
| .moveAssign dst src =>
    if dst = src then s
    else
      match s.frames[dst]?, s.frames[src]? with
      | some fd, some fs =>
          { frames := (s.frames.set dst fs).set src (M.movedFrom fs),
            events := s.events ++ M.emit fd }
      | _, _ => s
| .destroy i =>
    match s.frames[i]? with
    | some f =>
        { frames := s.frames.set i M.dflt, events := s.events ++ M.emit f }
    | none => s

/-- Execute a sequence of operations. -/
def FrameModel.run (M : FrameModel F E) (s : FrameSys F E) :
    List FrameOp → FrameSys F E
| [] => s
| op :: ops => M.run (M.step s op) ops

/-- The destructor emissions of a list of frames, in order. -/
def FrameModel.emitAll (M : FrameModel F E) : List F → List E
| [] => []
| f :: fs => M.emit f ++ M.emitAll fs

/-- Final teardown: every remaining frame goes out of scope (destruction
runs in reverse construction order) and its destructor emission is
appended to the trace. -/
def FrameModel.destroyAll (M : FrameModel F E) (s : FrameSys F E) :
    FrameSys F E :=
  { frames := [], events := s.events ++ M.emitAll s.frames.reverse }

/-- The `YuvFrame` instance: the destructor and the move-assignment
release guard are `is_valid_ && release_cb_ && pMbBlk != nullptr`
(MediaFrame.cpp), and the callback receives `&frame_info_`. -/
def yuvModel : FrameModel YuvFrame VideoFrameInfo :=
  { emit := fun f =>
      if f.is_valid && f.release_cb.isSome && f.frame_info.pMbBlk.isSome
      then [f.frame_info] else [],
    movedFrom := YuvFrame.movedFrom,
    dflt := YuvFrame.defaultFrame }

/-- The `EncodedFrame` instance: the destructor and the move-assignment
release guard are `is_valid_ && release_cb_` (MediaFrame.cpp), and the
callback receives `&stream_`. -/
def encModel : FrameModel EncodedFrame VencStream :=
  { emit := fun g =>
      if g.is_valid && g.release_cb.isSome then [g.stream] else [],
    movedFrom := EncodedFrame.movedFrom,
    dflt := EncodedFrame.defaultFrame }

/-- The single-release invariant tying the release trace to the live
frames: the tracked handle (`holds` on frames, `eventP` on trace entries)
has been released exactly once or is owned by exactly one live frame, and
every live frame holding it would release it exactly once when
destroyed. -/
def FrameModel.GoodInv (M : FrameModel F E) (holds : F → Bool)
    (eventP : E → Bool) (s : FrameSys F E) : Prop :=
  s.events.countP eventP + s.frames.countP holds = 1
  ∧ ∀ f ∈ s.frames, holds f = true → (M.emit f).countP eventP = 1

-- ===========================================================================
-- Concrete sample values (used by witnesses and counterexamples)
-- ===========================================================================

/-- A concrete acquired `VIDEO_FRAME_INFO_S`: handle 1, PTS 42,
1920x1080 with a 1920x1088 aligned buffer. -/
def sampleFrameInfo : VideoFrameInfo :=
  { pMbBlk := some 1, pVirAddr0 := none, u64PTS := 42, u32Width := 1920,
    u32Height := 1080, u32VirWidth := 1920, u32VirHeight := 1088 }

/-- A concrete encoded stream: one IDR pack of 100 bytes. -/
def samplePacks : List VencPack :=
  [{ pMbBlk := 7, u32Len := 100, u64PTS := 5, isIdrNalu := true }]

/-- A concrete `VENC_STREAM_S` holding `samplePacks`. -/
def sampleStream : VencStream := { pstPack := some samplePacks, u32PackCount := 1 }

/-- A concrete operation sequence: move-construct, move-assign back over
the original, self-move-assign, default-construct a third frame, destroy
an intermediate, move-construct again. -/
def sampleOps : List FrameOp :=
  [.moveCtor 0, .moveAssign 0 1, .moveAssign 0 0, .defaultCtor,
   .destroy 1, .moveCtor 0]

/-- A pipeline system with two registered modules and no callbacks
installed. -/
def sampleSys : PipeSys :=
  { pipe := Pipeline.fresh,
    modules := [{ output_callback := none }, { output_callback := none }] }

/-- An `RtspServer` that has been initialized and stopped. -/
def rtspStopped : RtspServer :=
  { state := .kStopped, demo := false, session := false }

/-- An `RtspServer` that has been successfully initialized (demo and
session live) but not started — the state a successful `Initialize`
reaches from a fresh module. -/
def rtspInited : RtspServer :=
  { state := .kInited, demo := true, session := true }

-- ===========================================================================
-- Theorems.  General list bookkeeping lemmas first.
-- ===========================================================================

/-- Replacing the element at `i` changes a `countP` by swapping the old
element's contribution for the new one's (stated additively). -/
theorem countP_set_add (p : α → Bool) :
    ∀ (l : List α) (i : Nat) (f a : α), l[i]? = some f →
      (l.set i a).countP p + (if p f then 1 else 0)
        = l.countP p + (if p a then 1 else 0)
  | [], i, f, a, h => by simp at h
  | x :: xs, 0, f, a, h => by
      simp only [List.getElem?_cons_zero, Option.some.injEq] at h
      subst h
      simp only [List.set, List.countP_cons]
      omega
  | x :: xs, i + 1, f, a, h => by
      simp only [List.getElem?_cons_succ] at h
      have ih := countP_set_add p xs i f a h
      simp only [List.set, List.countP_cons]
      omega

-- ===========================================================================
-- C3, C4, C9: the module lifecycle state machines
-- ===========================================================================

/-- C3 counterexample: the claim says every module's `start()` succeeds
from `Stopped`, but `RtspServer::Start` rejects every state except
`kInitialized` — started from `kStopped` it returns `false` and leaves
the module unchanged, so a stopped RTSP server cannot be re-started. -/
theorem C3_counterexample :
    (RtspServer.Start rtspStopped).1 = false
    ∧ (RtspServer.Start rtspStopped).2 = rtspStopped := by decide

/-- C3 (amended): `Start` succeeds from `kInitialized` or `kStopped` and
moves to `kRunning` for `VideoCapture`, `VideoEncoder` and `FileSaver`;
`RtspServer::Start` succeeds only from `kInitialized`, and from
`kStopped` it fails leaving the module unchanged. -/
theorem C3_start_transitions :
    (∀ m : VideoCapture, m.state = .kInited ∨ m.state = .kStopped →
        (m.Start).1 = true ∧ (m.Start).2.state = .kRunning)
  ∧ (∀ m : VideoEncoder, m.state = .kInited ∨ m.state = .kStopped →
        (m.Start).1 = true ∧ (m.Start).2.state = .kRunning)
  ∧ (∀ m : FileSaver, m.state = .kInited ∨ m.state = .kStopped →
        (m.Start).1 = true ∧ (m.Start).2.state = .kRunning)
  ∧ (∀ m : RtspServer, m.state = .kInited →
        (m.Start).1 = true ∧ (m.Start).2.state = .kRunning)
  ∧ (∀ m : RtspServer, m.state = .kStopped →
        (m.Start).1 = false ∧ (m.Start).2 = m) := by
  refine ⟨?_, ?_, ?_, ?_, ?_⟩
  · intro m hm
    rcases hm with h | h <;> simp [VideoCapture.Start, h]
  · intro m hm
    rcases hm with h | h <;> simp [VideoEncoder.Start, h]
  · intro m hm
    rcases hm with h | h <;> simp [FileSaver.Start, h]
  · intro m h
    simp [RtspServer.Start, h]
  · intro m h
    simp [RtspServer.Start, h]

/-- C3 witness: the amended statement applied to concrete modules in the
relevant states. -/
theorem C3_start_transitions_witness :
    (({ VideoCapture.fresh with state := .kStopped } : VideoCapture).Start.1 = true
      ∧ ({ VideoCapture.fresh with state := .kStopped } : VideoCapture).Start.2.state = .kRunning)
  ∧ (({ RtspServer.fresh with state := .kInited } : RtspServer).Start.1 = true
      ∧ ({ RtspServer.fresh with state := .kInited } : RtspServer).Start.2.state = .kRunning)
  ∧ ((rtspStopped.Start).1 = false ∧ (rtspStopped.Start).2 = rtspStopped) :=
  ⟨C3_start_transitions.1 _ (Or.inr rfl),
   C3_start_transitions.2.2.2.1 _ rfl,
   C3_start_transitions.2.2.2.2 rtspStopped rfl⟩

/-- C4: `Start` from `kUninitialized` or `kError` fails and leaves the
whole module unchanged, for every concrete module; and a second
`Initialize` on an already-`kInitialized` module returns success without
touching the module (no side effects, regardless of the external call
results it would otherwise consume). -/
theorem C4_start_fail_init_idempotent :
    (∀ m : VideoCapture, m.state = .kUninit ∨ m.state = .kError →
        m.Start = (false, m))
  ∧ (∀ m : VideoEncoder, m.state = .kUninit ∨ m.state = .kError →
        m.Start = (false, m))
  ∧ (∀ m : FileSaver, m.state = .kUninit ∨ m.state = .kError →
        m.Start = (false, m))
  ∧ (∀ m : RtspServer, m.state = .kUninit ∨ m.state = .kError →
        m.Start = (false, m))
  ∧ (∀ (m : VideoCapture) (sysOk ispOk viOk : Bool), m.state = .kInited →
        m.Initialize sysOk ispOk viOk = (true, m))
  ∧ (∀ (m : VideoEncoder) (createOk : Bool), m.state = .kInited →
        m.Initialize createOk = (true, m))
  ∧ (∀ (m : FileSaver) (dirOk : Bool), m.state = .kInited →
        m.Initialize dirOk = (true, m))
  ∧ (∀ (m : RtspServer) (a b c : Bool), m.state = .kInited →
        m.Initialize a b c = (true, m)) := by
  refine ⟨?_, ?_, ?_, ?_, ?_, ?_, ?_, ?_⟩
  · intro m hm; rcases hm with h | h <;> simp [VideoCapture.Start, h]
  · intro m hm; rcases hm with h | h <;> simp [VideoEncoder.Start, h]
  · intro m hm; rcases hm with h | h <;> simp [FileSaver.Start, h]
  · intro m hm; rcases hm with h | h <;> simp [RtspServer.Start, h]
  · intro m a b c h; simp [VideoCapture.Initialize, h]
  · intro m a h; simp [VideoEncoder.Initialize, h]
  · intro m a h; simp [FileSaver.Initialize, h]
  · intro m a b c h; simp [RtspServer.Initialize, h]

/-- C4 witness: applied to fresh (uninitialized) and initialized concrete
modules. -/
theorem C4_start_fail_init_idempotent_witness :
    (VideoCapture.fresh.Start = (false, VideoCapture.fresh))
  ∧ (RtspServer.fresh.Start = (false, RtspServer.fresh))
  ∧ (({ VideoEncoder.fresh with state := .kInited } : VideoEncoder).Initialize true
      = (true, { VideoEncoder.fresh with state := .kInited })) :=
  ⟨C4_start_fail_init_idempotent.1 _ (Or.inl rfl),
   C4_start_fail_init_idempotent.2.2.2.1 _ (Or.inl rfl),
   C4_start_fail_init_idempotent.2.2.2.2.2.1 _ true rfl⟩

/-- C9 counterexample: the claim says `stop()` is an idempotent no-op on
any module that is not Running, but `RtspServer::Stop` is gated on
`state != kUninitialized`, not on a running flag: on an initialized,
never-started server (reachable by one successful `Initialize` from a
fresh module) it tears the session and demo down and transitions to
`kStopped` — it is not a no-op. -/
theorem C9_counterexample :
    (RtspServer.Initialize true true true RtspServer.fresh).2 = rtspInited
  ∧ rtspInited.state ≠ ModuleState.kRunning
  ∧ rtspInited.Stop ≠ rtspInited
  ∧ rtspInited.Stop = rtspStopped := by
  decide

/-- C9 (amended): calling `Stop` twice never runs the teardown twice and
the second call returns without further work — `Stop` is idempotent
(`Stop ∘ Stop = Stop`) on all four modules, and the loop-owning modules
join their thread at most once per stop sequence.  But only
`VideoCapture` and `VideoEncoder` (gated on the `running_` flag) treat
`Stop` as a no-op whenever not Running; `RtspServer` and `FileSaver`
(gated on `state != kUninitialized`) are no-ops only from
`kUninitialized` and otherwise perform their teardown and transition to
`kStopped` even when not Running. -/
theorem C9_stop_twice :
    (∀ m : VideoCapture,
        m.Stop.Stop = m.Stop
      ∧ m.Stop.joins ≤ m.joins + 1
      ∧ (m.running = false → m.Stop = m))
  ∧ (∀ m : VideoEncoder,
        m.Stop.Stop = m.Stop
      ∧ m.Stop.joins ≤ m.joins + 1
      ∧ (m.running = false → m.Stop = m))
  ∧ (∀ m : RtspServer,
        m.Stop.Stop = m.Stop
      ∧ (m.state = .kUninit → m.Stop = m)
      ∧ (m.state ≠ .kUninit → m.Stop
          = { m with session := false, demo := false, state := .kStopped }))
  ∧ (∀ m : FileSaver,
        m.Stop.Stop = m.Stop
      ∧ (m.state = .kUninit → m.Stop = m)
      ∧ (m.state ≠ .kUninit → m.Stop
          = { m with recording := false, state := .kStopped })) := by
  refine ⟨?_, ?_, ?_, ?_⟩
  · intro m
    by_cases h : m.running <;> simp [VideoCapture.Stop, h]
  · intro m
    by_cases h : m.running <;> simp [VideoEncoder.Stop, h]
  · intro m
    by_cases h : m.state = .kUninit <;> simp [RtspServer.Stop, h]
  · intro m
    by_cases h : m.state = .kUninit <;> simp [FileSaver.Stop, h]

/-- C9 witness: the amended statement applied to a concrete running
capture module, an idle encoder module, the initialized RTSP server and
a fresh file saver. -/
theorem C9_stop_twice_witness :
    (({ VideoCapture.fresh with running := true, state := .kRunning } :
        VideoCapture).Stop.Stop
      = ({ VideoCapture.fresh with running := true, state := .kRunning } :
        VideoCapture).Stop)
  ∧ (VideoEncoder.fresh.Stop = VideoEncoder.fresh)
  ∧ (rtspInited.Stop
      = { rtspInited with session := false, demo := false, state := .kStopped })
  ∧ (FileSaver.fresh.Stop = FileSaver.fresh) :=
  ⟨(C9_stop_twice.1 _).1,
   (C9_stop_twice.2.1 VideoEncoder.fresh).2.2 rfl,
   (C9_stop_twice.2.2.1 rtspInited).2.2 (by decide),
   (C9_stop_twice.2.2.2 FileSaver.fresh).2.1 rfl⟩

-- ===========================================================================
-- C5, C6: the reference-counted SystemManager
-- ===========================================================================

/-- `Initialize` on a state with a positive count only increments the
count (the `prev_count > 0` early-success path), so `k` such calls add
`k`. -/
theorem applyInits_of_pos :
    ∀ (k : Nat) (s : SysState), 0 < s.ref_count →
      SysState.applyInits k s = { s with ref_count := s.ref_count + k }
  | 0, s, _ => by simp [SysState.applyInits]
  | k + 1, s, h => by
      have step : (SysState.Initialize true s).2
          = { s with ref_count := s.ref_count + 1 } := by
        simp [SysState.Initialize, h]
      rw [SysState.applyInits, step,
        applyInits_of_pos k _ (show (0:Int) < s.ref_count + 1 by omega)]
      simp only [SysState.mk.injEq, and_true, true_and]
      push_cast
      ring

/-- `Deinitialize` composes additively over call counts. -/
theorem applyDeinits_add :
    ∀ (a b : Nat) (s : SysState),
      SysState.applyDeinits (a + b) s
        = SysState.applyDeinits b (SysState.applyDeinits a s)
  | 0, b, s => by simp [SysState.applyDeinits]
  | a + 1, b, s => by
      rw [show a + 1 + b = (a + b) + 1 by omega]
      rw [SysState.applyDeinits, SysState.applyDeinits, applyDeinits_add a b]

/-- While the count stays above 1, `Deinitialize` only decrements: `k`
calls subtract `k` when the count exceeds `k`. -/
theorem applyDeinits_of_big :
    ∀ (k : Nat) (s : SysState), (k : Int) < s.ref_count →
      SysState.applyDeinits k s = { s with ref_count := s.ref_count - k }
  | 0, s, _ => by simp [SysState.applyDeinits]
  | k + 1, s, h => by
      have h1 : ¬ s.ref_count ≤ 0 := by omega
      have h2 : s.ref_count ≠ 1 := by omega
      have step : s.Deinit = { s with ref_count := s.ref_count - 1 } := by
        simp [SysState.Deinit, h1, h2]
      rw [SysState.applyDeinits, step,
        applyDeinits_of_big k _ (show (k:Int) < s.ref_count - 1 by omega)]
      simp only [SysState.mk.injEq, and_true, true_and]
      push_cast
      ring

/-- C5: the reference-counted guard performs the underlying init/teardown
exactly once per 0→1 / 1→0 transition.  First conjunct: `n` acquires
(each underlying `RK_MPI_SYS_Init` succeeding) followed by `n` releases,
from the fresh singleton, perform exactly one underlying init and exactly
one underlying teardown and return the count to 0.  The remaining
conjuncts characterise the transitions per call: an acquire invokes the
underlying init exactly when the pre-increment count is 0, and a release
invokes the underlying teardown exactly when the pre-decrement count is 1
with the system initialized. -/
theorem C5_refcount_once :
    (∀ n : Nat, 1 ≤ n →
        (SysState.applyDeinits n (SysState.applyInits n SysState.fresh)).initCalls = 1
      ∧ (SysState.applyDeinits n (SysState.applyInits n SysState.fresh)).exitCalls = 1
      ∧ (SysState.applyDeinits n (SysState.applyInits n SysState.fresh)).ref_count = 0
      ∧ (SysState.applyDeinits n (SysState.applyInits n SysState.fresh)).sys_inited = false)
  ∧ (∀ s : SysState, s.ref_count = 0 →
        (SysState.Initialize true s).2.initCalls = s.initCalls + 1)
  ∧ (∀ s : SysState, 0 < s.ref_count →
        (SysState.Initialize true s).2.initCalls = s.initCalls)
  ∧ (∀ s : SysState, s.ref_count = 1 → s.sys_inited = true →
        s.Deinit.exitCalls = s.exitCalls + 1)
  ∧ (∀ s : SysState, s.ref_count ≠ 1 → s.Deinit.exitCalls = s.exitCalls) := by
  refine ⟨?_, ?_, ?_, ?_, ?_⟩
  · intro n hn
    obtain ⟨m, rfl⟩ : ∃ m, n = m + 1 := ⟨n - 1, by omega⟩
    have e1 : (SysState.Initialize true SysState.fresh).2
        = { ref_count := 1, sys_inited := true, initCalls := 1, exitCalls := 0 } := by
      decide
    have e2 : SysState.applyInits (m + 1) SysState.fresh
        = { ref_count := 1 + m, sys_inited := true, initCalls := 1, exitCalls := 0 } := by
      rw [SysState.applyInits, e1,
        applyInits_of_pos m _ (by norm_num)]
    have e3 : SysState.applyDeinits m
          ({ ref_count := 1 + m, sys_inited := true, initCalls := 1,
             exitCalls := 0 } : SysState)
        = { ref_count := 1, sys_inited := true, initCalls := 1, exitCalls := 0 } := by
      rw [applyDeinits_of_big m _ (by simp)]
      simp only [SysState.mk.injEq, and_true, true_and]
      ring
    have e4 : SysState.applyDeinits (m + 1)
          ({ ref_count := 1 + m, sys_inited := true, initCalls := 1,
             exitCalls := 0 } : SysState)
        = { ref_count := 0, sys_inited := false, initCalls := 1, exitCalls := 1 } := by
      rw [applyDeinits_add m 1, e3]
      decide
    rw [e2, e4]
    exact ⟨rfl, rfl, rfl, rfl⟩
  · intro s h
    simp [SysState.Initialize, h]
  · intro s h
    simp [SysState.Initialize, h]
  · intro s h1 h2
    have h3 : ¬ s.ref_count ≤ 0 := by omega
    simp [SysState.Deinit, h1, h2, h3]
  · intro s h
    by_cases h0 : s.ref_count ≤ 0
    · simp [SysState.Deinit, h0]
    · simp [SysState.Deinit, h0, h]

/-- C5 witness: three acquires then three releases, and the per-call
characterisations at concrete states. -/
theorem C5_refcount_once_witness :
    ((SysState.applyDeinits 3 (SysState.applyInits 3 SysState.fresh)).initCalls = 1
      ∧ (SysState.applyDeinits 3 (SysState.applyInits 3 SysState.fresh)).exitCalls = 1
      ∧ (SysState.applyDeinits 3 (SysState.applyInits 3 SysState.fresh)).ref_count = 0
      ∧ (SysState.applyDeinits 3 (SysState.applyInits 3 SysState.fresh)).sys_inited = false)
  ∧ (SysState.Initialize true SysState.fresh).2.initCalls = SysState.fresh.initCalls + 1 :=
  ⟨C5_refcount_once.1 3 (by norm_num), C5_refcount_once.2.1 SysState.fresh rfl⟩

/-- C6: error paths keep the count in range — a first acquire whose
underlying init fails reports failure with the increment rolled back (the
count returns to 0, nothing else changes), and a release on a zero count
clamps the count to 0 without ever invoking the teardown. -/
theorem C6_refcount_error_paths :
    (∀ s : SysState, s.ref_count = 0 →
        (SysState.Initialize false s).1 = false
      ∧ (SysState.Initialize false s).2.ref_count = 0
      ∧ (SysState.Initialize false s).2.sys_inited = s.sys_inited
      ∧ (SysState.Initialize false s).2.exitCalls = s.exitCalls)
  ∧ (∀ s : SysState, s.ref_count = 0 →
        s.Deinit.ref_count = 0
      ∧ s.Deinit.exitCalls = s.exitCalls
      ∧ s.Deinit.sys_inited = s.sys_inited) := by
  constructor
  · intro s h
    simp [SysState.Initialize, h]
  · intro s h
    simp [SysState.Deinit, h]

/-- C6 witness: both error paths exercised on the fresh singleton. -/
theorem C6_refcount_error_paths_witness :
    ((SysState.Initialize false SysState.fresh).1 = false
      ∧ (SysState.Initialize false SysState.fresh).2.ref_count = 0
      ∧ (SysState.Initialize false SysState.fresh).2.sys_inited = SysState.fresh.sys_inited
      ∧ (SysState.Initialize false SysState.fresh).2.exitCalls = SysState.fresh.exitCalls)
  ∧ (SysState.fresh.Deinit.ref_count = 0
      ∧ SysState.fresh.Deinit.exitCalls = SysState.fresh.exitCalls
      ∧ SysState.fresh.Deinit.sys_inited = SysState.fresh.sys_inited) :=
  ⟨C6_refcount_error_paths.1 SysState.fresh rfl,
   C6_refcount_error_paths.2 SysState.fresh rfl⟩

-- ===========================================================================
-- C7, C8, C10: the pipeline binding manager
-- ===========================================================================

/-- C7: from a pipeline with no recorded bindings, a successful
`BindHardware` records exactly one binding; `UnbindAll` then empties the
binding list after invoking the external unbind primitive exactly once,
with the original endpoint pair; and an identical `BindHardware` on the
unbound pipeline succeeds again (when the external primitive succeeds)
and re-records the binding. -/
theorem C7_bind_unbind_rebind :
    ∀ (p : Pipeline) (src dst : ModuleEndpoint), p.bindings = [] →
      (Pipeline.BindHardware true src dst p).1 = true
    ∧ (Pipeline.BindHardware true src dst p).2.bindings.length = 1
    ∧ ((Pipeline.BindHardware true src dst p).2.UnbindAll).bindings = []
    ∧ ((Pipeline.BindHardware true src dst p).2.UnbindAll).unbindCalls
        = p.unbindCalls ++ [(src, dst)]
    ∧ (Pipeline.BindHardware true src dst
        ((Pipeline.BindHardware true src dst p).2.UnbindAll)).1 = true
    ∧ (Pipeline.BindHardware true src dst
        ((Pipeline.BindHardware true src dst p).2.UnbindAll)).2.bindings.length = 1 := by
  intro p src dst h
  simp [Pipeline.BindHardware, Pipeline.UnbindAll, BindInfo.isHardware, h]

/-- C7 witness: bind/unbind/rebind on the freshly constructed pipeline at
a concrete endpoint pair. -/
theorem C7_bind_unbind_rebind_witness :
    (Pipeline.BindHardware true ⟨1, 0, 0⟩ ⟨2, 0, 0⟩ Pipeline.fresh).1 = true
  ∧ (Pipeline.BindHardware true ⟨1, 0, 0⟩ ⟨2, 0, 0⟩ Pipeline.fresh).2.bindings.length = 1
  ∧ ((Pipeline.BindHardware true ⟨1, 0, 0⟩ ⟨2, 0, 0⟩ Pipeline.fresh).2.UnbindAll).bindings = []
  ∧ ((Pipeline.BindHardware true ⟨1, 0, 0⟩ ⟨2, 0, 0⟩ Pipeline.fresh).2.UnbindAll).unbindCalls
      = Pipeline.fresh.unbindCalls ++ [(⟨1, 0, 0⟩, ⟨2, 0, 0⟩)]
  ∧ (Pipeline.BindHardware true ⟨1, 0, 0⟩ ⟨2, 0, 0⟩
      ((Pipeline.BindHardware true ⟨1, 0, 0⟩ ⟨2, 0, 0⟩ Pipeline.fresh).2.UnbindAll)).1 = true
  ∧ (Pipeline.BindHardware true ⟨1, 0, 0⟩ ⟨2, 0, 0⟩
      ((Pipeline.BindHardware true ⟨1, 0, 0⟩ ⟨2, 0, 0⟩ Pipeline.fresh).2.UnbindAll)).2.bindings.length = 1 :=
  C7_bind_unbind_rebind Pipeline.fresh ⟨1, 0, 0⟩ ⟨2, 0, 0⟩ rfl

/-- C8 counterexample: the claim says that after `BindSoftware` followed
by `UnbindAll` the forwarding callback is no longer held by the source
module; but `UnbindAll` only clears the binding records — the source
module's `output_callback_` slot still holds the forwarding closure
(`some 1`, not `none`) afterwards. -/
theorem C8_counterexample :
    ((PipeSys.BindSoftware (some 0) (some 1) sampleSys).2.UnbindAll).pipe.bindings = []
  ∧ ((PipeSys.BindSoftware (some 0) (some 1) sampleSys).2.UnbindAll).modules
      = [{ output_callback := some 1 }, { output_callback := none }] := by
  decide

/-- C8 (amended): `UnbindAll` clears every recorded binding — dropping
the pipeline's own module references — but does not touch any module, so
the forwarding output callback that `BindSoftware` installed on the
source module remains installed (still referencing the destination
weakly) after `UnbindAll` returns. -/
theorem C8_unbind_keeps_callback :
    ∀ (s : PipeSys) (si di : Nat),
      ((PipeSys.BindSoftware (some si) (some di) s).2.UnbindAll).pipe.bindings = []
    ∧ ((PipeSys.BindSoftware (some si) (some di) s).2.UnbindAll).modules
        = (PipeSys.BindSoftware (some si) (some di) s).2.modules
    ∧ (si < s.modules.length →
        ((PipeSys.BindSoftware (some si) (some di) s).2.UnbindAll).modules[si]?
          = some { output_callback := some di }) := by
  intro s si di
  refine ⟨rfl, rfl, ?_⟩
  intro h
  simp [PipeSys.BindSoftware, PipeSys.UnbindAll, Pipeline.UnbindAll,
    List.getElem?_set, h]

/-- C8 witness: the amended statement at the concrete two-module
system. -/
theorem C8_unbind_keeps_callback_witness :
    ((PipeSys.BindSoftware (some 0) (some 1) sampleSys).2.UnbindAll).pipe.bindings = []
  ∧ ((PipeSys.BindSoftware (some 0) (some 1) sampleSys).2.UnbindAll).modules
      = (PipeSys.BindSoftware (some 0) (some 1) sampleSys).2.modules
  ∧ (0 < sampleSys.modules.length →
      ((PipeSys.BindSoftware (some 0) (some 1) sampleSys).2.UnbindAll).modules[0]?
        = some { output_callback := some 1 }) :=
  C8_unbind_keeps_callback sampleSys 0 1

/-- C10: the virtual `MediaModule::PushFrame` default returns `false` and
leaves the module untouched — and since no concrete module overrides it,
every delivery through the forwarding callback installed by
`BindSoftware` reaches this default: when the destination is alive the
push reports `false` (the frame is discarded), and when the destination
is gone the frame is silently dropped. -/
theorem C10_pushframe_default :
    (∀ (m : MediaModuleR) (f : Nat), m.PushFrame f = (false, m))
  ∧ (∀ (modules : List MediaModuleR) (t f : Nat), t < modules.length →
        softwareForward modules t f = some false)
  ∧ (∀ (modules : List MediaModuleR) (t f : Nat), modules[t]? = none →
        softwareForward modules t f = none) := by
  refine ⟨fun m f => rfl, ?_, ?_⟩
  · intro modules t f h
    simp [softwareForward, MediaModuleR.PushFrame,
      List.getElem?_eq_getElem h]
  · intro modules t f h
    simp [softwareForward, h]

/-- C10 witness: a delivery to the live module 1 of the sample system
returns `some false`. -/
theorem C10_pushframe_default_witness :
    softwareForward sampleSys.modules 1 99 = some false :=
  C10_pushframe_default.2.1 sampleSys.modules 1 99 (by decide)

-- ===========================================================================
-- C2: accessors on invalid frames
-- ===========================================================================

/-- C2 counterexample: a moved-from `YuvFrame` is invalid, yet its
timestamp and width accessors return the stale metadata left in the
struct (42 and 1920 here), not 0 — the move operations null only
`pMbBlk`, and `GetPts`/`GetWidth` perform no validity check. -/
theorem C2_counterexample :
    ((YuvFrame.fromAcquired sampleFrameInfo (some 0)).movedFrom).IsValid = false
  ∧ ((YuvFrame.fromAcquired sampleFrameInfo (some 0)).movedFrom).GetPts = 42
  ∧ ¬ ((YuvFrame.fromAcquired sampleFrameInfo (some 0)).movedFrom).GetPts = 0
  ∧ ((YuvFrame.fromAcquired sampleFrameInfo (some 0)).movedFrom).GetWidth = 1920 := by
  decide

/-- C2 (amended): on any invalid frame the handle-dependent accessors do
return null/zero and `IsValid` returns false (`GetVirAddr`, `GetPhyAddr`,
`GetDataSize` for `YuvFrame`; `GetVirAddr`, `GetDataSize`, `GetPts`,
`GetPhyAddr`, `IsKeyFrame` for `EncodedFrame`); a default-constructed
`YuvFrame` also reads 0 from all metadata accessors because the struct is
zero-initialized; but a moved-from frame's unchecked metadata accessors
(`YuvFrame::GetPts/GetWidth/GetHeight/GetVirWidth/GetVirHeight`,
`EncodedFrame::GetPacketCount`) return the original frame's stale
values rather than 0. -/
theorem C2_invalid_accessors :
    (∀ (env : MpiEnv) (f : YuvFrame), f.is_valid = false →
        f.GetVirAddr env = none
      ∧ f.GetPhyAddr env = 0
      ∧ f.GetDataSize env = 0
      ∧ f.IsValid = false)
  ∧ (∀ env : MpiEnv,
        YuvFrame.defaultFrame.GetVirAddr env = none
      ∧ YuvFrame.defaultFrame.GetPhyAddr env = 0
      ∧ YuvFrame.defaultFrame.GetDataSize env = 0
      ∧ YuvFrame.defaultFrame.GetPts = 0
      ∧ YuvFrame.defaultFrame.GetWidth = 0
      ∧ YuvFrame.defaultFrame.GetHeight = 0
      ∧ YuvFrame.defaultFrame.GetVirWidth = 0
      ∧ YuvFrame.defaultFrame.GetVirHeight = 0
      ∧ YuvFrame.defaultFrame.IsValid = false)
  ∧ (∀ f : YuvFrame,
        f.movedFrom.IsValid = false
      ∧ f.movedFrom.GetPts = f.GetPts
      ∧ f.movedFrom.GetWidth = f.GetWidth
      ∧ f.movedFrom.GetHeight = f.GetHeight
      ∧ f.movedFrom.GetVirWidth = f.GetVirWidth
      ∧ f.movedFrom.GetVirHeight = f.GetVirHeight)
  ∧ (∀ (env : MpiEnv) (g : EncodedFrame), g.is_valid = false →
        g.GetVirAddr env = none
      ∧ g.GetDataSize = 0
      ∧ g.GetPts = 0
      ∧ g.GetPhyAddr = 0
      ∧ g.IsKeyFrame = false
      ∧ g.IsValid = false)
  ∧ (∀ g : EncodedFrame,
        g.movedFrom.IsValid = false
      ∧ g.movedFrom.GetPacketCount = g.GetPacketCount) := by
  refine ⟨?_, ?_, ?_, ?_, ?_⟩
  · intro env f h
    refine ⟨?_, ?_, ?_, ?_⟩ <;>
      simp [YuvFrame.GetVirAddr, YuvFrame.GetPhyAddr, YuvFrame.GetDataSize,
        YuvFrame.IsValid, h]
  · intro env
    refine ⟨?_, ?_, ?_, ?_, ?_, ?_, ?_, ?_, ?_⟩ <;> rfl
  · intro f
    refine ⟨rfl, rfl, rfl, rfl, rfl, rfl⟩
  · intro env g h
    refine ⟨?_, ?_, ?_, rfl, ?_, ?_⟩ <;>
      simp [EncodedFrame.GetVirAddr, EncodedFrame.GetDataSize,
        EncodedFrame.GetPts, EncodedFrame.IsKeyFrame, EncodedFrame.IsValid, h]
  · intro g
    exact ⟨rfl, rfl⟩

/-- C2 witness: the amended statement at the moved-from sample frame and
a concrete environment. -/
theorem C2_invalid_accessors_witness :
    (((YuvFrame.fromAcquired sampleFrameInfo (some 0)).movedFrom).GetVirAddr
        ⟨fun _ => none, fun _ => 0, fun _ => 0⟩ = none
      ∧ ((YuvFrame.fromAcquired sampleFrameInfo (some 0)).movedFrom).GetPhyAddr
        ⟨fun _ => none, fun _ => 0, fun _ => 0⟩ = 0
      ∧ ((YuvFrame.fromAcquired sampleFrameInfo (some 0)).movedFrom).GetDataSize
        ⟨fun _ => none, fun _ => 0, fun _ => 0⟩ = 0
      ∧ ((YuvFrame.fromAcquired sampleFrameInfo (some 0)).movedFrom).IsValid = false)
  ∧ (((EncodedFrame.fromAcquired sampleStream 0 (some 0)).movedFrom).GetVirAddr
        ⟨fun _ => none, fun _ => 0, fun _ => 0⟩ = none
      ∧ ((EncodedFrame.fromAcquired sampleStream 0 (some 0)).movedFrom).GetDataSize = 0
      ∧ ((EncodedFrame.fromAcquired sampleStream 0 (some 0)).movedFrom).GetPts = 0
      ∧ ((EncodedFrame.fromAcquired sampleStream 0 (some 0)).movedFrom).GetPhyAddr = 0
      ∧ ((EncodedFrame.fromAcquired sampleStream 0 (some 0)).movedFrom).IsKeyFrame = false
      ∧ ((EncodedFrame.fromAcquired sampleStream 0 (some 0)).movedFrom).IsValid = false) :=
  ⟨C2_invalid_accessors.1 ⟨fun _ => none, fun _ => 0, fun _ => 0⟩
      ((YuvFrame.fromAcquired sampleFrameInfo (some 0)).movedFrom) rfl,
   C2_invalid_accessors.2.2.2.1 ⟨fun _ => none, fun _ => 0, fun _ => 0⟩
      ((EncodedFrame.fromAcquired sampleStream 0 (some 0)).movedFrom) rfl⟩

-- ===========================================================================
-- C1: single release across move/assign/destroy sequences
-- ===========================================================================

/-- `countP` is invariant under reversal. -/
theorem countP_reverse_eq (p : α → Bool) :
    ∀ l : List α, l.reverse.countP p = l.countP p
  | [] => rfl
  | x :: xs => by
      simp only [List.reverse_cons, List.countP_append, List.countP_cons,
        List.countP_nil, countP_reverse_eq p xs]
      omega

/-- The single-release invariant is preserved by every frame operation,
provided moved-from and default frames never hold the tracked handle and
frames not holding it never release it. -/
theorem GoodInv_step (M : FrameModel F E) (holds : F → Bool)
    (eventP : E → Bool)
    (hmoved : ∀ f, holds (M.movedFrom f) = false)
    (hdflt : holds M.dflt = false)
    (hmiss : ∀ f, holds f = false → (M.emit f).countP eventP = 0)
    (s : FrameSys F E) (op : FrameOp)
    (hInv : M.GoodInv holds eventP s) :
    M.GoodInv holds eventP (M.step s op) := by
  obtain ⟨hcount, hgood⟩ := hInv
  cases op with
  | defaultCtor =>
      constructor
      · simp only [FrameModel.step, List.countP_append, List.countP_cons,
          List.countP_nil, hdflt]
        simpa using hcount
      · intro g hg hhg
        simp only [FrameModel.step, List.mem_append, List.mem_singleton] at hg
        rcases hg with hg | rfl
        · exact hgood g hg hhg
        · rw [hdflt] at hhg; cases hhg
  | moveCtor src =>
      cases hsrc : s.frames[src]? with
      | none =>
          simp only [FrameModel.step, hsrc]
          exact ⟨hcount, hgood⟩
      | some f =>
          obtain ⟨hlt, hget⟩ := List.getElem?_eq_some.mp hsrc
          have hmem : f ∈ s.frames := hget ▸ List.getElem_mem hlt
          have hcs := countP_set_add holds s.frames src f (M.movedFrom f) hsrc
          rw [hmoved f] at hcs
          constructor
          · simp only [FrameModel.step, hsrc, List.countP_append,
              List.countP_cons, List.countP_nil]
            by_cases hf : holds f <;> simp [hf] at hcs ⊢ <;> omega
          · intro g hg hhg
            simp only [FrameModel.step, hsrc, List.mem_append,
              List.mem_singleton] at hg
            rcases hg with hg | rfl
            · rcases List.mem_or_eq_of_mem_set hg with h1 | rfl
              · exact hgood g h1 hhg
              · rw [hmoved f] at hhg; cases hhg
            · exact hgood g hmem hhg
  | moveAssign dst src =>
      by_cases hds : dst = src
      · simp only [FrameModel.step, if_pos hds]
        exact ⟨hcount, hgood⟩
      · cases hdq : s.frames[dst]? with
        | none =>
            simp only [FrameModel.step, if_neg hds, hdq]
            exact ⟨hcount, hgood⟩
        | some fd =>
            cases hsq : s.frames[src]? with
            | none =>
                simp only [FrameModel.step, if_neg hds, hdq, hsq]
                exact ⟨hcount, hgood⟩
            | some fs =>
                obtain ⟨hdlt, hdget⟩ := List.getElem?_eq_some.mp hdq
                obtain ⟨hslt, hsget⟩ := List.getElem?_eq_some.mp hsq
                have hdmem : fd ∈ s.frames := hdget ▸ List.getElem_mem hdlt
                have hsmem : fs ∈ s.frames := hsget ▸ List.getElem_mem hslt
                have hA := countP_set_add holds s.frames dst fd fs hdq
                have hsrc2 : (s.frames.set dst fs)[src]? = some fs := by
                  rw [List.getElem?_set_ne hds]; exact hsq
                have hB := countP_set_add holds (s.frames.set dst fs) src fs
                  (M.movedFrom fs) hsrc2
                rw [hmoved fs] at hB
                have hemit : (M.emit fd).countP eventP
                    = if holds fd then 1 else 0 := by
                  by_cases h : holds fd
                  · simp [h, hgood fd hdmem h]
                  · simp [h, hmiss fd (by simpa using h)]
                constructor
                · simp only [FrameModel.step, if_neg hds, hdq, hsq,
                    List.countP_append, hemit]
                  by_cases h1 : holds fd <;> by_cases h2 : holds fs <;>
                    simp [h1, h2] at hA hB ⊢ <;> omega
                · intro g hg hhg
                  simp only [FrameModel.step, if_neg hds, hdq, hsq] at hg
                  rcases List.mem_or_eq_of_mem_set hg with h1 | rfl
                  · rcases List.mem_or_eq_of_mem_set h1 with h2 | rfl
                    · exact hgood g h2 hhg
                    · exact hgood g hsmem hhg
                  · rw [hmoved fs] at hhg; cases hhg
  | destroy i =>
      cases hq : s.frames[i]? with
      | none =>
          simp only [FrameModel.step, hq]
          exact ⟨hcount, hgood⟩
      | some f =>
          obtain ⟨hlt, hget⟩ := List.getElem?_eq_some.mp hq
          have hmem : f ∈ s.frames := hget ▸ List.getElem_mem hlt
          have hC := countP_set_add holds s.frames i f M.dflt hq
          rw [hdflt] at hC
          have hemit : (M.emit f).countP eventP
              = if holds f then 1 else 0 := by
            by_cases h : holds f
            · simp [h, hgood f hmem h]
            · simp [h, hmiss f (by simpa using h)]
          constructor
          · simp only [FrameModel.step, hq, List.countP_append, hemit]
            by_cases h : holds f <;> simp [h] at hC ⊢ <;> omega
          · intro g hg hhg
            simp only [FrameModel.step, hq] at hg
            rcases List.mem_or_eq_of_mem_set hg with h1 | rfl
            · exact hgood g h1 hhg
            · rw [hdflt] at hhg; cases hhg

/-- The invariant is preserved by any operation sequence. -/
theorem GoodInv_run (M : FrameModel F E) (holds : F → Bool)
    (eventP : E → Bool)
    (hmoved : ∀ f, holds (M.movedFrom f) = false)
    (hdflt : holds M.dflt = false)
    (hmiss : ∀ f, holds f = false → (M.emit f).countP eventP = 0) :
    ∀ (ops : List FrameOp) (s : FrameSys F E), M.GoodInv holds eventP s →
      M.GoodInv holds eventP (M.run s ops)
  | [], _, h => h
  | op :: ops, s, h =>
      GoodInv_run M holds eventP hmoved hdflt hmiss ops _
        (GoodInv_step M holds eventP hmoved hdflt hmiss s op h)

/-- Running every remaining destructor emits the tracked handle once per
live frame holding it. -/
theorem countP_emitAll_eq (M : FrameModel F E) (holds : F → Bool)
    (eventP : E → Bool)
    (hmiss : ∀ f, holds f = false → (M.emit f).countP eventP = 0) :
    ∀ l : List F, (∀ f ∈ l, holds f = true → (M.emit f).countP eventP = 1) →
      (M.emitAll l).countP eventP = l.countP holds
  | [], _ => rfl
  | f :: fs, hg => by
      simp only [FrameModel.emitAll, List.countP_append, List.countP_cons]
      rw [countP_emitAll_eq M holds eventP hmiss fs
        (fun g hgm => hg g (List.mem_cons_of_mem f hgm))]
      by_cases h : holds f
      · rw [hg f (List.mem_cons_self f fs) h, h]
        simp only [eq_self_iff_true, if_true]
        omega
      · have hb : holds f = false := by simpa using h
        rw [hmiss f hb, hb]
        simp

/-- Generic single-release: from any state satisfying the invariant, any
sequence of move/assign/destroy operations followed by the destruction of
every remaining frame releases the tracked handle exactly once. -/
theorem single_release_run (M : FrameModel F E) (holds : F → Bool)
    (eventP : E → Bool)
    (hmoved : ∀ f, holds (M.movedFrom f) = false)
    (hdflt : holds M.dflt = false)
    (hmiss : ∀ f, holds f = false → (M.emit f).countP eventP = 0)
    (s0 : FrameSys F E) (hInv : M.GoodInv holds eventP s0)
    (ops : List FrameOp) :
    (M.destroyAll (M.run s0 ops)).events.countP eventP = 1 := by
  obtain ⟨hc, hg⟩ :=
    GoodInv_run M holds eventP hmoved hdflt hmiss ops s0 hInv
  simp only [FrameModel.destroyAll, List.countP_append]
  rw [countP_emitAll_eq M holds eventP hmiss (M.run s0 ops).frames.reverse
    (fun f hf => hg f (List.mem_reverse.mp hf))]
  rw [countP_reverse_eq]
  exact hc

/-- C1: starting from a single frame constructed from an acquired handle
with a stored release callback, any sequence of move constructions, move
assignments (including self-assignment and assignment over a valid frame)
and destructions, followed by the destruction of every remaining frame,
invokes the release callback exactly once with the underlying buffer
handle — for `YuvFrame` (tracking `pMbBlk`) and for `EncodedFrame`
(tracking the `pstPack` packet buffer).  In particular a moved-from or
already-released frame never releases again. -/
theorem C1_single_release :
    (∀ (fi : VideoFrameInfo) (h c : Nat), fi.pMbBlk = some h →
      ∀ ops : List FrameOp,
        ((yuvModel.destroyAll (yuvModel.run
            ⟨[YuvFrame.fromAcquired fi (some c)], []⟩ ops)).events.countP
          (fun e => e.pMbBlk == some h)) = 1)
  ∧ (∀ (st : VencStream) (ps : List VencPack) (chn c : Nat),
      st.pstPack = some ps → 0 < st.u32PackCount →
      ∀ ops : List FrameOp,
        ((encModel.destroyAll (encModel.run
            ⟨[EncodedFrame.fromAcquired st chn (some c)], []⟩ ops)).events.countP
          (fun e => e.pstPack == some ps)) = 1) := by
  constructor
  · intro fi h c hh ops
    apply single_release_run yuvModel (fun f => f.frame_info.pMbBlk == some h)
      (fun e => e.pMbBlk == some h)
    · intro f
      simp [yuvModel, YuvFrame.movedFrom]
    · simp [yuvModel, YuvFrame.defaultFrame, VideoFrameInfo.zero]
    · intro f hf
      have hne : ¬ f.frame_info.pMbBlk = some h := by simpa using hf
      simp only [yuvModel]
      by_cases hguard :
          (f.is_valid && f.release_cb.isSome && f.frame_info.pMbBlk.isSome) = true
      · rw [if_pos hguard]
        simp [List.countP_cons, hf]
      · rw [if_neg hguard]
        rfl
    · refine ⟨?_, ?_⟩
      · simp [YuvFrame.fromAcquired, List.countP_cons, hh]
      · intro f hfmem hholds
        simp only [List.mem_singleton] at hfmem
        subst hfmem
        simp [yuvModel, YuvFrame.fromAcquired, hh, List.countP_cons]
  · intro st ps chn c hps hcnt ops
    apply single_release_run encModel (fun g => g.stream.pstPack == some ps)
      (fun e => e.pstPack == some ps)
    · intro g
      simp [encModel, EncodedFrame.movedFrom]
    · simp [encModel, EncodedFrame.defaultFrame, VencStream.zero]
    · intro g hg
      simp only [encModel]
      by_cases hguard : (g.is_valid && g.release_cb.isSome) = true
      · rw [if_pos hguard]
        simp [List.countP_cons, hg]
      · rw [if_neg hguard]
        rfl
    · refine ⟨?_, ?_⟩
      · simp [EncodedFrame.fromAcquired, List.countP_cons, hps]
      · intro g hgmem hholds
        simp only [List.mem_singleton] at hgmem
        subst hgmem
        simp [encModel, EncodedFrame.fromAcquired, hps, hcnt, List.countP_cons]

/-- C1 witness: the single-release count evaluated on the sample frame,
sample stream and the sample operation sequence (move-construct,
assign-over-valid, self-assign, default-construct, destroy,
move-construct). -/
theorem C1_single_release_witness :
    ((yuvModel.destroyAll (yuvModel.run
        ⟨[YuvFrame.fromAcquired sampleFrameInfo (some 0)], []⟩ sampleOps)).events.countP
      (fun e => e.pMbBlk == some 1)) = 1
  ∧ ((encModel.destroyAll (encModel.run
        ⟨[EncodedFrame.fromAcquired sampleStream 0 (some 0)], []⟩ sampleOps)).events.countP
      (fun e => e.pstPack == some samplePacks)) = 1 :=
  ⟨C1_single_release.1 sampleFrameInfo 1 0 rfl sampleOps,
   C1_single_release.2 sampleStream samplePacks 0 0 rfl (by decide) sampleOps⟩

end Rmg
